import Mathlib

/-!
Shallow embedding of the configuration-driven model/dataset/optimizer builder
layer (src/builder.py) and the ResNetDeepFashion model assembler
(src/model.py) of the kaseris/wandb-assignment-retrieval repository,
together with proofs checking the natural-language specification against it.

Python dictionaries holding heterogeneous configuration values are embedded
as association lists over a small value universe `PyVal`; Python mutation of
a caller-owned dict is embedded by returning the updated dictionary;
fallible Python code returns `Except PyErr`.
-/

/-- A single torch parameter tensor, abstracted to an identity and its
`requires_grad` flag (the only attributes the builder layer inspects). -/
structure PyParam where
  pid : Nat
  requires_grad : Bool
deriving DecidableEq

/-- Value universe for the configuration dictionaries that flow through the
builder layer: Python `None`, a list of model parameters, a natural number,
a string, or an opaque external object identified by a tag. -/
inductive PyVal where
  | pynone
  | plist (ps : List PyParam)
  | pnat (n : Nat)
  | pstr (s : String)
  | pobj (tag : Nat)
deriving DecidableEq

/-- A Python dict with string keys, embedded as an association list kept in
insertion order, exactly as CPython dictionaries iterate. -/
structure Dict where
  entries : List (String × PyVal)
deriving DecidableEq

/-- Assignment `d[k] = v` on the underlying entry list: update the first
binding of `k` in place, or append a fresh binding at the end. -/
def setKV (k : String) (v : PyVal) : List (String × PyVal) → List (String × PyVal)
  | [] => [(k, v)]
  | kv :: rest => if kv.1 = k then (k, v) :: rest else kv :: setKV k v rest

def Dict.set (d : Dict) (k : String) (v : PyVal) : Dict :=
  ⟨setKV k v d.entries⟩

/-- Lookup `d[k]`, returning `none` where Python would raise `KeyError`. -/
def Dict.get? (d : Dict) (k : String) : Option PyVal :=
  (d.entries.find? (fun kv => kv.1 = k)).map Prod.snd

/-- The exceptions the embedded builder code can raise. -/
inductive PyErr where
  | valueErrorUnsupported (ty : String) (valid : List String)
  | keyError (k : String)
  | nameError (n : String)
  | indexError
deriving DecidableEq

/-- Modelled from the spec: the `Registry` class lives in `registry.py`,
which is not under `src/`; section 4.1 of the spec describes it as a
name-to-constructor mapping exposing `keys()` for validation and item
lookup. It is embedded as an association list from names to constructors. -/
structure Registry (α : Type) where
  registry : List (String × α)

def Registry.keys {α : Type} (r : Registry α) : List String :=
  r.registry.map Prod.fst

def Registry.get? {α : Type} (r : Registry α) (n : String) : Option α :=
  (r.registry.find? (fun kv => kv.1 = n)).map Prod.snd

/-- Top-level model configuration `{type, model_cfg}` consumed by
`build_model` (src/builder.py lines 52-53). -/
structure ModelCfgTop (κ : Type) where
  mtype : String
  model_cfg : κ

/-- `build_model` from src/builder.py lines 31-59: validate `cfg['type']`
against the MODELS registry, raising a ValueError that lists every
registered key on failure, otherwise instantiate the registered constructor
on `cfg['model_cfg']`. -/
def build_model {κ μ : Type} (MODELS : Registry (κ → μ)) (cfg : ModelCfgTop κ) :
    Except PyErr μ :=
  let model_cfg := cfg.model_cfg
  let model_type := cfg.mtype
  if MODELS.keys.contains model_type then
    match MODELS.get? model_type with
    | some ctor => .ok (ctor model_cfg)
    | none => .error (.keyError model_type)
  else
    .error (.valueErrorUnsupported model_type MODELS.keys)

/-- One dataset entry `{type, dataset_cfg}` of the configuration passed to
`build_dataset`. -/
structure DSEntry where
  dstype : String
  dataset_cfg : Dict
deriving DecidableEq

/-- The object produced by calling a registered dataset constructor with
keyword arguments: it records the type name and the kwargs it received. -/
structure DatasetObj where
  dstype : String
  kwargs : Dict
deriving DecidableEq

def listPre : List Char → List Char → Bool
  | [], _ => true
  | _ :: _, [] => false
  | a :: as, b :: bs => a = b && listPre as bs

def listSub (needle : List Char) : List Char → Bool
  | [] => listPre needle []
  | c :: rest => listPre needle (c :: rest) || listSub needle rest

/-- Python substring test `needle in hay` on strings. -/
def strContains (hay needle : String) : Bool :=
  listSub needle.toList hay.toList

/-- The loop body of `build_dataset` (src/builder.py lines 88-105). The
`env` argument carries the Python local variables `splits, annotations`:
`none` while they are still unbound (using them then raises `NameError`),
`some` after the `key == 'train_dataset'` branch has run `prepare_data()`.
Note that the two injection assignments sit OUTSIDE the train-only branch
in the source, so they execute for every dataset entry. -/
def buildDatasetLoop (DATASETS : List String) (prep : PyVal × PyVal) :
    List (String × DSEntry) → Option (PyVal × PyVal) →
    Except PyErr (List (String × DatasetObj))
  | [], _ => .ok []
  | (key, entry) :: rest, env =>
    if DATASETS.contains entry.dstype then
      let env1 := if key = "train_dataset" then some prep else env
      match env1 with
      | none => .error (.nameError "splits")
      | some sa =>
        let dcfg := (entry.dataset_cfg.set "split_info" sa.1).set "garment_annotations" sa.2
        match buildDatasetLoop DATASETS prep rest env1 with
        | .ok r => .ok ((key, ⟨entry.dstype, dcfg⟩) :: r)
        | .error e => .error e
    else .error (.valueErrorUnsupported entry.dstype DATASETS)

/-- `build_dataset` from src/builder.py lines 61-106: iterate over the keys
whose name contains "dataset"; `prep` models the external
`prepare_data()` collaborator returning `(split_info, garment_annotations)`;
`DATASETS` is the key set of the dataset registry (dataset.py is not under
src/, so its registry is abstracted to its names and its constructors to
`DatasetObj`). -/
def build_dataset (DATASETS : List String) (prep : PyVal × PyVal)
    (data : List (String × DSEntry)) : Except PyErr (List (String × DatasetObj)) :=
  let dataset_keys := data.filter (fun kv => strContains kv.1 "dataset")
  buildDatasetLoop DATASETS prep dataset_keys none

/-- A torch submodule as seen by `model.named_modules()`: its parameter
list. -/
structure PyModule where
  params : List PyParam
deriving DecidableEq

/-- The view of a torch model used by `build_optimizer`: its
`named_modules()` sequence and its flat `parameters()` sequence. -/
structure TorchModel where
  named_modules : List (String × PyModule)
  parameters : List PyParam

/-- Optimizer configuration `{type, params, optimizer_cfg}` consumed by
`build_optimizer` (src/builder.py lines 145-151). -/
structure OptCfg where
  otype : String
  params : Option (List String)
  optimizer_cfg : Dict

/-- The object produced by calling a torch optimizer constructor with
keyword arguments: it records the optimizer name and the kwargs it
received. `torch.optim` classes are external, so the OPTIMIZERS dict built
by inspection over them is abstracted to its key list. -/
structure OptimizerObj where
  otype : String
  kwargs : Dict
deriving DecidableEq

/-- Line 157 of src/builder.py: the parameters collected in the
`cfg['params'] is None` branch, filtered by the live `requires_grad`
flag. -/
def collectTrainable (ps : List PyParam) : List PyParam :=
  ps.filter (fun p => p.requires_grad)

/-- One iteration of the module loop of `build_optimizer` (src/builder.py
lines 152-155): on a name match, extend the local `trainable_params` list
and assign the RETURN VALUE of `list.extend` - which is Python `None` - to
`optimizer_cfg['params']`. -/
def optLoopStep (names : List String) (acc : Dict × List PyParam)
    (nm : String × PyModule) : Dict × List PyParam :=
  if names.contains nm.1 then
    (acc.1.set "params" PyVal.pynone, acc.2 ++ nm.2.params)
  else acc

/-- `build_optimizer` from src/builder.py lines 108-163. The first
component of the result is the final state of `cfg['optimizer_cfg']`,
which the function mutates in place in the caller; the second is the
outcome. The `Dict.get?` match embeds the debug-logging f-string on line
158, which evaluates `optimizer_cfg["params"]` eagerly and raises
`KeyError` when the key is absent; it runs before the registry check. -/
def build_optimizer (OPTIMIZERS : List String) (cfg : OptCfg) (model : TorchModel) :
    Dict × Except PyErr OptimizerObj :=
  let optimizer_type := cfg.otype
  let res :=
    match cfg.params with
    | some names =>
      model.named_modules.foldl (optLoopStep names) (cfg.optimizer_cfg, ([] : List PyParam))
    | none => (cfg.optimizer_cfg, collectTrainable model.parameters)
  let optimizer_cfg := res.1
  match optimizer_cfg.get? "params" with
  | none => (optimizer_cfg, .error (.keyError "params"))
  | some _ =>
    if OPTIMIZERS.contains optimizer_type then
      (optimizer_cfg, .ok ⟨optimizer_type, optimizer_cfg⟩)
    else
      (optimizer_cfg, .error (.valueErrorUnsupported optimizer_type OPTIMIZERS))

/-- A 2-D value matrix: one row of class scores per sample. -/
abbrev Mat := List (List Int)

inductive Device where
  | cpu
  | cuda
deriving DecidableEq

/-- An autograd-tracked activation tensor: its value, whether it is part of
the recorded gradient graph, and the device it lives on. -/
structure ATensor where
  val : Mat
  requires_grad : Bool
  device : Device
deriving DecidableEq

def ATensor.toCpu (t : ATensor) : ATensor :=
  { t with device := Device.cpu }

/-- A target tensor: its shape, its flattened integer labels, and its
device. -/
structure TTensor where
  shape : List Nat
  vals : List Int
  device : Device
deriving DecidableEq

def TTensor.toCpu (t : TTensor) : TTensor :=
  { t with device := Device.cpu }

/-- `torch.Tensor.squeeze()`: remove every dimension of size 1. -/
def TTensor.squeeze (t : TTensor) : TTensor :=
  { t with shape := t.shape.filter (fun d => d ≠ 1) }

/-- The target normalization shared by `training_step` and
`validation_step` (src/model.py lines 306-307 and 338-339): squeeze only
when the rank exceeds 1. -/
def normTargets (t : TTensor) : TTensor :=
  if 1 < t.shape.length then t.squeeze else t

/-- A symbolic loss value: the cross-entropy of a logits matrix against a
target tensor (`F.cross_entropy(preds, target=targets)`,
src/model.py line 370). -/
inductive LossVal where
  | ce (preds : Mat) (target : TTensor)
deriving DecidableEq

/-- The `ResNetDeepFashion` model state (src/model.py lines 190-248) after
`_prepare_model` has run: the truncated backbone and the classification
head as functions on values, and the two owned parameter lists carrying
the trainability flags. -/
structure RDFModel where
  backboneF : Mat → Mat
  headF : Mat → Mat × Mat
  backbone_params : List PyParam
  cls_head_params : List PyParam

def anyRG (ps : List PyParam) : Bool :=
  ps.any (fun p => p.requires_grad)

/-- Application of a torch module under a given autograd mode: the output
value is the module function on the input value; the output is tracked in
the gradient graph exactly when grad mode is on and either the input is
tracked or some module parameter requires grad. -/
def applyModule (gradMode : Bool) (f : Mat → Mat) (paramsTracked : Bool)
    (x : ATensor) : ATensor :=
  ⟨f x.val, gradMode && (x.requires_grad || paramsTracked), x.device⟩

/-- The tuple of local values produced by `ResNetDeepFashion.forward`:
the returned triple plus the intermediate backbone output `out`. -/
structure FwdOut where
  preds : ATensor
  embeddings : ATensor
  loss : Option LossVal
  bOut : ATensor
deriving DecidableEq

/-- `ResNetDeepFashion.forward` (src/model.py lines 349-372): the backbone
call is wrapped in `with torch.no_grad():`, embdedded as running
`applyModule` with grad mode hard-wired to `false`; the head runs under the
ambient grad mode; with targets present the cross-entropy loss is attached,
otherwise the loss slot is `None`. -/
def RDFModel.forward (m : RDFModel) (gradMode : Bool) (x : ATensor)
    (targets : Option TTensor) : FwdOut :=
  let out := applyModule false m.backboneF (anyRG m.backbone_params) x
  let he := m.headF out.val
  let tracked := gradMode && (out.requires_grad || anyRG m.cls_head_params)
  let preds : ATensor := ⟨he.1, tracked, out.device⟩
  let embeddings : ATensor := ⟨he.2, tracked, out.device⟩
  match targets with
  | some t => ⟨preds, embeddings, some (.ce he.1 t), out⟩
  | none => ⟨preds, embeddings, none, out⟩

/-- `ResNetDeepFashion.freeze_weights` (src/model.py lines 250-255): set
`requires_grad = False` on every backbone parameter; head parameters are
not touched. -/
def RDFModel.freeze_weights (m : RDFModel) : RDFModel :=
  { m with backbone_params :=
      m.backbone_params.map (fun p => { p with requires_grad := false }) }

/-- `ResNetDeepFashion.unfreeze_weights` (src/model.py lines 257-262). -/
def RDFModel.unfreeze_weights (m : RDFModel) : RDFModel :=
  { m with backbone_params :=
      m.backbone_params.map (fun p => { p with requires_grad := true }) }

/-- The view of an `RDFModel` that `build_optimizer` consumes through
`named_modules()` and `parameters()`: the two owned submodules and the
concatenated parameter list. -/
def RDFModel.toTorchModel (m : RDFModel) : TorchModel :=
  ⟨[("backbone", ⟨m.backbone_params⟩), ("cls_head", ⟨m.cls_head_params⟩)],
    m.backbone_params ++ m.cls_head_params⟩

/-- One backbone sub-layer as seen through `backbone.children()`: an
identity and the `in_features` width of its input. -/
structure BLayer where
  lid : Nat
  in_features : Nat
deriving DecidableEq

/-- `ResNetDeepFashion._prepare_model` (src/model.py lines 241-248): read
`in_features` of the last child (IndexError on an empty child list),
truncate the backbone to all children but the last, write the width into
`cls_head_config['fan_in']`, and instantiate the head from the CLS_HEADS
registry on the augmented config. The head constructor is abstract in `H`;
registry lookup follows the spec-modelled `Registry`. -/
def prepare_model {H : Type} (clsHeads : Registry (Dict → H)) (cls_head_type : String)
    (children : List BLayer) (cls_head_config : Dict) :
    Except PyErr (List BLayer × Dict × H) :=
  match children.getLast? with
  | none => .error .indexError
  | some lastLayer =>
    let num_features := lastLayer.in_features
    let newChildren := children.dropLast
    let cfg1 := cls_head_config.set "fan_in" (.pnat num_features)
    match clsHeads.get? cls_head_type with
    | none => .error (.keyError cls_head_type)
    | some ctor => .ok (newChildren, cfg1, ctor cfg1)

/-- `ResNetDeepFashion.__init__` (src/model.py lines 219-239): instantiate
the backbone factory found in the BACKBONES registry, then run
`_prepare_model`. -/
def resnetDeepFashionInit {H : Type} (BACKBONES : Registry (Unit → List BLayer))
    (clsHeads : Registry (Dict → H)) (backbone : String) (cls_head_type : String)
    (cls_head_config : Dict) : Except PyErr (List BLayer × Dict × H) :=
  match BACKBONES.get? backbone with
  | none => .error (.keyError backbone)
  | some bf => prepare_model clsHeads cls_head_type (bf ()) cls_head_config

/-- The shared mutable training state owned by the model/optimizer pair:
the gradient buffers (the accumulated backward contributions since the
last `zero_grad`) and the history of gradient sets consumed by successive
`optimizer.step()` calls. -/
structure TState where
  grads : List LossVal
  optHist : List (List LossVal)
deriving DecidableEq

/-- `optimizer.zero_grad()`: clear the gradient buffers. -/
def optZeroGrad (s : TState) : TState :=
  { s with grads := [] }

/-- `loss.backward()`: accumulate the gradient of this loss into the
buffers. -/
def lossBackward (l : LossVal) (s : TState) : TState :=
  { s with grads := s.grads ++ [l] }

/-- `optimizer.step()`: apply an update driven by the current gradient
buffers, recording which gradients were consumed. -/
def optStep (s : TState) : TState :=
  { s with optHist := s.optHist ++ [s.grads] }

/-- A scalar metric value as returned by `.item()`: a rational (for the
accuracy ratio) or the symbolic value of a loss. -/
inductive MetricVal where
  | ratio (q : ℚ)
  | lossItem (l : LossVal)
deriving DecidableEq

/-- `torch.argmax(row)` over one row of scores: index of the maximal
entry. -/
def argmaxAux : List Int → Nat → Nat → Int → Nat
  | [], _, best, _ => best
  | v :: rest, i, best, bv =>
    if bv < v then argmaxAux rest (i + 1) i v else argmaxAux rest (i + 1) best bv

def argmaxRow : List Int → Nat
  | [] => 0
  | v :: rest => argmaxAux rest 1 0 v

/-- `torch.argmax(logits, dim=1)`: per-row argmax. -/
def argmaxRows (m : Mat) : List Nat :=
  m.map argmaxRow

/-- `torch.sum(predictions == targets)`: the number of positions where the
predicted class index equals the target label. -/
def matchCount (preds : List Nat) (tv : List Int) : Nat :=
  ((preds.zip tv).filter (fun pr => (pr.1 : Int) = pr.2)).length

/-- What one training or validation step returns and observably does: the
returned metrics dictionary, the training state after the step, and the
devices of the two tensors the accuracy comparison ran on. -/
structure StepOut where
  metrics : List (String × MetricVal)
  state : TState
  cmpDevs : Device × Device

/-- `ResNetDeepFashion.training_step` (src/model.py lines 283-319): squeeze
targets of rank above 1, run forward with loss under grad mode, move
logits and targets to the cpu, compute the argmax match rate, then
`zero_grad`, `backward`, `step` in source order. The `none` loss arm is
unreachable because forward is called with targets present. -/
def training_step (m : RDFModel) (s : TState) (x : ATensor) (targets : TTensor) :
    StepOut :=
  let targets1 := normTargets targets
  let fw := m.forward true x (some targets1)
  let logits_cpu := fw.preds.toCpu
  let targets_cpu := targets1.toCpu
  let predictions := argmaxRows logits_cpu.val
  let train_accuracy : ℚ :=
    (matchCount predictions targets_cpu.vals : ℚ) / (targets_cpu.vals.length : ℚ)
  match fw.loss with
  | some lossv =>
    let s1 := optZeroGrad s
    let s2 := lossBackward lossv s1
    let s3 := optStep s2
    ⟨[("train_acc", .ratio train_accuracy), ("train_loss", .lossItem lossv)], s3,
      (logits_cpu.device, targets_cpu.device)⟩
  | none => ⟨[], s, (logits_cpu.device, targets_cpu.device)⟩

/-- `ResNetDeepFashion.validation_step` (src/model.py lines 321-347): the
`@torch.no_grad()` decorator disables grad mode for the whole body; the
body reads the model and computes metrics but never touches the optimizer
or the parameters, so the model and the training state pass through
unchanged. -/
def validation_step (m : RDFModel) (s : TState) (x_val : ATensor)
    (targets_val : TTensor) : RDFModel × StepOut :=
  let targets1 := normTargets targets_val
  let fw := m.forward false x_val (some targets1)
  let logits_cpu := fw.preds.toCpu
  let targets_cpu := targets1.toCpu
  let predictions := argmaxRows logits_cpu.val
  let val_accuracy : ℚ :=
    (matchCount predictions targets_cpu.vals : ℚ) / (targets_cpu.vals.length : ℚ)
  match fw.loss with
  | some lossv =>
    (m, ⟨[("val_acc", .ratio val_accuracy), ("val_loss", .lossItem lossv)], s,
      (logits_cpu.device, targets_cpu.device)⟩)
  | none => (m, ⟨[], s, (logits_cpu.device, targets_cpu.device)⟩)

lemma setKV_find_self (k : String) (v : PyVal) (l : List (String × PyVal)) :
    (setKV k v l).find? (fun kv => kv.1 = k) = some (k, v) := by
  induction l with
  | nil => simp [setKV, List.find?]
  | cons kv rest ih =>
    by_cases h : kv.1 = k
    · simp [setKV, h, List.find?]
    · simp [setKV, h, List.find?, ih]

lemma Dict.get?_set (d : Dict) (k : String) (v : PyVal) :
    (d.set k v).get? k = some v := by
  simp [Dict.set, Dict.get?, setKV_find_self]

lemma setKV_setKV (k : String) (v w : PyVal) (l : List (String × PyVal)) :
    setKV k w (setKV k v l) = setKV k w l := by
  induction l with
  | nil => simp [setKV]
  | cons kv rest ih =>
    by_cases h : kv.1 = k
    · simp [setKV, h]
    · simp [setKV, h, ih]

lemma Dict.set_set (d : Dict) (k : String) (v w : PyVal) :
    (d.set k v).set k w = d.set k w := by
  simp [Dict.set, setKV_setKV]

lemma Dict.set_ne_of_get?_ne (d : Dict) (k : String) (v : PyVal)
    (h : d.get? k ≠ some v) : d.set k v ≠ d := by
  intro he
  exact h (he ▸ d.get?_set k v)

lemma registry_mem_keys_iff {α : Type} (r : Registry α) (t : String) :
    t ∈ r.keys ↔ (r.get? t).isSome := by
  constructor
  · intro hm
    rcases List.mem_map.mp hm with ⟨kv, hkv, hfst⟩
    have : (r.registry.find? (fun kv => kv.1 = t)).isSome :=
      List.find?_isSome.mpr ⟨kv, hkv, by simp [hfst]⟩
    simpa [Registry.get?] using this
  · intro hs
    rcases Option.isSome_iff_exists.mp hs with ⟨c, hc⟩
    simp only [Registry.get?, Option.map_eq_some'] at hc
    rcases hc with ⟨kv, hfind, _⟩
    have hmem := List.mem_of_find?_eq_some hfind
    have hpred := List.find?_some hfind
    have hfst : kv.1 = t := by simpa using hpred
    exact hfst ▸ List.mem_map_of_mem Prod.fst hmem

lemma registry_get?_none_of_not_contains {α : Type} (r : Registry α) (t : String)
    (h : r.keys.contains t = false) : r.get? t = none := by
  have hm : t ∉ r.keys := by
    intro hmem
    have hc : r.keys.contains t = true := List.elem_iff.mpr hmem
    rw [h] at hc
    exact Bool.false_ne_true hc
  rcases ho : r.get? t with _ | c
  · rfl
  · exact absurd ((registry_mem_keys_iff r t).mpr (by simp [ho])) hm

lemma registry_get?_isSome_of_contains {α : Type} (r : Registry α) (t : String)
    (h : r.keys.contains t = true) : (r.get? t).isSome :=
  (registry_mem_keys_iff r t).mp (List.elem_iff.mp h)

lemma optLoop_fst (names : List String) (l : List (String × PyModule))
    (d : Dict) (ps : List PyParam) :
    (l.foldl (optLoopStep names) (d, ps)).1 =
      if l.any (fun nm => names.contains nm.1) then d.set "params" PyVal.pynone else d := by
  induction l generalizing d ps with
  | nil => simp
  | cons nm rest ih =>
    by_cases h : names.contains nm.1 = true
    · rw [List.foldl_cons]
      have hstep : optLoopStep names (d, ps) nm
          = (d.set "params" PyVal.pynone, ps ++ nm.2.params) := by
        unfold optLoopStep
        rw [if_pos h]
      rw [hstep, ih]
      have hany : (nm :: rest).any (fun nm => names.contains nm.1) = true := by
        rw [List.any_cons, h, Bool.true_or]
      rw [if_pos hany]
      by_cases hr : rest.any (fun nm => names.contains nm.1) = true
      · rw [if_pos hr, Dict.set_set]
      · rw [if_neg hr]
    · rw [List.foldl_cons]
      have hstep : optLoopStep names (d, ps) nm = (d, ps) := by
        unfold optLoopStep
        rw [if_neg h]
      rw [hstep, ih]
      have hf : names.contains nm.1 = false := Bool.eq_false_iff.mpr h
      have hcons : (nm :: rest).any (fun nm => names.contains nm.1)
          = rest.any (fun nm => names.contains nm.1) := by
        rw [List.any_cons, hf, Bool.false_or]
      rw [hcons]

lemma matchCount_le (preds : List Nat) (tv : List Int) :
    matchCount preds tv ≤ tv.length := by
  calc matchCount preds tv ≤ (preds.zip tv).length := List.length_filter_le _ _
    _ ≤ tv.length := by
        rw [List.length_zip]
        exact Nat.min_le_right _ _

lemma normTargets_vals (t : TTensor) : (normTargets t).vals = t.vals := by
  unfold normTargets
  split <;> rfl

lemma build_optimizer_fst (O : List String) (cfg : OptCfg) (model : TorchModel) :
    (build_optimizer O cfg model).1
      = (match cfg.params with
         | some names =>
             model.named_modules.foldl (optLoopStep names)
               (cfg.optimizer_cfg, ([] : List PyParam))
         | none => (cfg.optimizer_cfg, collectTrainable model.parameters)).1 := by
  rcases hp : cfg.params with _ | names <;>
    simp only [build_optimizer, hp] <;>
    split <;>
    first
      | rfl
      | (split <;> rfl)

/-- C7: for every configuration whose type is not a registered model name,
`build_model` fails with the error that carries the full current key set of
the model registry; for a registered type it instantiates that entry on
`model_cfg` and returns the result. -/
theorem c7_build_model_contract {κ μ : Type} (MODELS : Registry (κ → μ))
    (cfg : ModelCfgTop κ) :
    (MODELS.get? cfg.mtype = none →
      build_model MODELS cfg
        = .error (.valueErrorUnsupported cfg.mtype MODELS.keys)) ∧
    (∀ ctor : κ → μ, MODELS.get? cfg.mtype = some ctor →
      build_model MODELS cfg = .ok (ctor cfg.model_cfg)) := by
  constructor
  · intro hget
    by_cases hc : MODELS.keys.contains cfg.mtype = true
    · have hs := registry_get?_isSome_of_contains MODELS cfg.mtype hc
      rw [hget] at hs
      simp at hs
    · simp only [build_model]
      rw [if_neg hc]
  · intro ctor hget
    have hc : MODELS.keys.contains cfg.mtype = true := by
      by_contra hcf
      have hf : MODELS.keys.contains cfg.mtype = false := Bool.eq_false_iff.mpr hcf
      rw [registry_get?_none_of_not_contains MODELS cfg.mtype hf] at hget
      cases hget
    simp only [build_model]
    rw [if_pos hc, hget]

theorem c7_witness :
    build_model (⟨[("ResNetDeepFashion", fun n => n + 1)]⟩ : Registry (Nat → Nat))
        ⟨"Missing", 3⟩
      = Except.error (PyErr.valueErrorUnsupported "Missing" ["ResNetDeepFashion"]) ∧
    build_model (⟨[("ResNetDeepFashion", fun n => n + 1)]⟩ : Registry (Nat → Nat))
        ⟨"ResNetDeepFashion", 3⟩
      = Except.ok 4 := by
  constructor
  · exact (c7_build_model_contract
      (⟨[("ResNetDeepFashion", fun n => n + 1)]⟩ : Registry (Nat → Nat))
      ⟨"Missing", 3⟩).1 rfl
  · exact (c7_build_model_contract
      (⟨[("ResNetDeepFashion", fun n => n + 1)]⟩ : Registry (Nat → Nat))
      ⟨"ResNetDeepFashion", 3⟩).2 (fun n => n + 1) rfl

/-- C3: the forward pass runs the backbone inside a no-gradient region for
every model, input and grad mode, independently of the frozen or unfrozen
state of the backbone parameters; with targets it returns the triple of
logits, embedding and the cross-entropy loss of the logits against the
targets, and without targets the loss slot is `None`. -/
theorem c3_forward_contract (m : RDFModel) (g : Bool) (x : ATensor) (t : TTensor) :
    (m.forward g x (some t)).bOut.requires_grad = false ∧
    (m.forward g x none).bOut.requires_grad = false ∧
    m.freeze_weights.forward g x (some t) = m.forward g x (some t) ∧
    m.unfreeze_weights.forward g x (some t) = m.forward g x (some t) ∧
    m.freeze_weights.forward g x none = m.forward g x none ∧
    (m.forward g x (some t)).loss
      = some (LossVal.ce (m.forward g x (some t)).preds.val t) ∧
    (m.forward g x none).loss = none ∧
    (m.forward g x none).preds = (m.forward g x (some t)).preds ∧
    (m.forward g x none).embeddings = (m.forward g x (some t)).embeddings :=
  ⟨rfl, rfl, rfl, rfl, rfl, rfl, rfl, rfl, rfl⟩

/-- C5: `validation_step` mutates neither the model nor the training state
owned by the model/optimizer pair - both pass through unchanged - and the
returned dictionary has exactly the keys val_acc and val_loss. -/
theorem c5_validation_step_frame (m : RDFModel) (s : TState) (x : ATensor)
    (t : TTensor) :
    (validation_step m s x t).1 = m ∧
    (validation_step m s x t).2.state = s ∧
    (validation_step m s x t).2.metrics.map Prod.fst = ["val_acc", "val_loss"] :=
  ⟨rfl, rfl, rfl⟩

/-- C6 counterexample: a target tensor of shape (2, 2) has no singleton
dimension, so the `squeeze` applied by `training_step` leaves its rank at
2, and the rank-2 tensor reaches the cross-entropy loss - the claim that
targets are squeezed to rank at most one is false at this input. -/
theorem c6_counterexample :
    (normTargets ⟨[2, 2], [0, 1, 0, 1], Device.cpu⟩).shape = [2, 2] ∧
    ¬ ((normTargets ⟨[2, 2], [0, 1, 0, 1], Device.cpu⟩).shape.length ≤ 1) ∧
    List.lookup "train_loss"
        (training_step ⟨id, fun v => (v, v), [], []⟩ ⟨[], []⟩
          ⟨[[5, 3], [2, 7]], false, Device.cpu⟩
          ⟨[2, 2], [0, 1, 0, 1], Device.cpu⟩).metrics
      = some (MetricVal.lossItem
          (LossVal.ce [[5, 3], [2, 7]] ⟨[2, 2], [0, 1, 0, 1], Device.cpu⟩)) :=
  ⟨rfl, by decide, rfl⟩

/-- C6 (amended): `training_step` applies `squeeze` to targets of rank
above 1, which removes exactly the size-1 dimensions (so rank at most 1 is
reached only when every dimension beyond the batch one is a singleton);
it runs forward with loss on the squeezed targets, computes top-1 accuracy
as the argmax match rate on cpu-resident tensors, then zeroes the
gradients, backpropagates this loss and steps the optimizer in that order,
and returns a metrics dictionary of exactly train_acc and train_loss with
the accuracy a fraction between 0 and 1 whenever the target batch is
nonempty. -/
theorem c6_training_step_amended (m : RDFModel) (s : TState) (x : ATensor)
    (targets : TTensor) (h : 0 < targets.vals.length) :
    ∃ q : ℚ, ∃ lossv : LossVal,
      (training_step m s x targets).metrics
        = [("train_acc", MetricVal.ratio q), ("train_loss", MetricVal.lossItem lossv)] ∧
      0 ≤ q ∧ q ≤ 1 ∧
      lossv = LossVal.ce (m.forward true x (some (normTargets targets))).preds.val
          (normTargets targets) ∧
      (training_step m s x targets).state = ⟨[lossv], s.optHist ++ [[lossv]]⟩ ∧
      (training_step m s x targets).cmpDevs = (Device.cpu, Device.cpu) ∧
      (normTargets targets).vals = targets.vals ∧
      (normTargets targets).shape
        = (if 1 < targets.shape.length then targets.shape.filter (fun d => d ≠ 1)
           else targets.shape) := by
  refine ⟨(matchCount
        (argmaxRows (RDFModel.forward m true x (some (normTargets targets))).preds.val)
        (normTargets targets).vals : ℚ) / ((normTargets targets).vals.length : ℚ),
      LossVal.ce (RDFModel.forward m true x (some (normTargets targets))).preds.val
        (normTargets targets),
      rfl, ?_, ?_, rfl, rfl, rfl, normTargets_vals targets, ?_⟩
  · exact div_nonneg (Nat.cast_nonneg _) (Nat.cast_nonneg _)
  · have hlen : 0 < (normTargets targets).vals.length := by
      rw [normTargets_vals]
      exact h
    have hpos : (0 : ℚ) < ((normTargets targets).vals.length : ℚ) := by
      exact_mod_cast hlen
    refine (div_le_one hpos).mpr ?_
    exact_mod_cast matchCount_le _ _
  · unfold normTargets TTensor.squeeze
    split <;> rfl

theorem c6_witness :
    0 < (TTensor.mk [1] [0] Device.cpu).vals.length ∧
    (∃ q : ℚ, ∃ lossv : LossVal,
      (training_step ⟨id, fun v => (v, v), [], []⟩ ⟨[], []⟩
          ⟨[[1, 0]], false, Device.cpu⟩ ⟨[1], [0], Device.cpu⟩).metrics
        = [("train_acc", MetricVal.ratio q), ("train_loss", MetricVal.lossItem lossv)] ∧
      0 ≤ q ∧ q ≤ 1 ∧
      lossv = LossVal.ce
          ((RDFModel.mk id (fun v => (v, v)) [] []).forward true
            ⟨[[1, 0]], false, Device.cpu⟩
            (some (normTargets ⟨[1], [0], Device.cpu⟩))).preds.val
          (normTargets ⟨[1], [0], Device.cpu⟩) ∧
      (training_step ⟨id, fun v => (v, v), [], []⟩ ⟨[], []⟩
          ⟨[[1, 0]], false, Device.cpu⟩ ⟨[1], [0], Device.cpu⟩).state
        = ⟨[lossv], ([] : List (List LossVal)) ++ [[lossv]]⟩ ∧
      (training_step ⟨id, fun v => (v, v), [], []⟩ ⟨[], []⟩
          ⟨[[1, 0]], false, Device.cpu⟩ ⟨[1], [0], Device.cpu⟩).cmpDevs
        = (Device.cpu, Device.cpu) ∧
      (normTargets ⟨[1], [0], Device.cpu⟩).vals = [0] ∧
      (normTargets ⟨[1], [0], Device.cpu⟩).shape
        = (if 1 < ([1] : List Nat).length then ([1] : List Nat).filter (fun d => d ≠ 1)
           else [1])) :=
  ⟨by decide,
    c6_training_step_amended ⟨id, fun v => (v, v), [], []⟩ ⟨[], []⟩
      ⟨[[1, 0]], false, Device.cpu⟩ ⟨[1], [0], Device.cpu⟩ (by decide)⟩

/-- C4: model construction reads the in_features width W of the final
backbone child, rebuilds the backbone as all children but the last, writes
W into cls_head_config under fan_in, and instantiates the head from the
head registry on that augmented config - so the head constructor always
receives a config whose fan_in equals W. -/
theorem c4_prepare_model_fan_in {H : Type} (BACKBONES : Registry (Unit → List BLayer))
    (clsHeads : Registry (Dict → H)) (backbone cls_head_type : String)
    (cls_head_config : Dict) (bf : Unit → List BLayer) (lastLayer : BLayer)
    (ctor : Dict → H)
    (hB : BACKBONES.get? backbone = some bf)
    (hL : (bf ()).getLast? = some lastLayer)
    (hC : clsHeads.get? cls_head_type = some ctor) :
    resnetDeepFashionInit BACKBONES clsHeads backbone cls_head_type cls_head_config
      = .ok ((bf ()).dropLast,
          cls_head_config.set "fan_in" (.pnat lastLayer.in_features),
          ctor (cls_head_config.set "fan_in" (.pnat lastLayer.in_features))) ∧
    (cls_head_config.set "fan_in" (.pnat lastLayer.in_features)).get? "fan_in"
      = some (.pnat lastLayer.in_features) := by
  constructor
  · simp only [resnetDeepFashionInit, hB, prepare_model, hL, hC]
  · exact Dict.get?_set _ _ _

theorem c4_witness :
    resnetDeepFashionInit
        (⟨[("resnet_18", fun _ => [⟨0, 64⟩, ⟨1, 512⟩])]⟩ : Registry (Unit → List BLayer))
        (⟨[("simple", fun d => d)]⟩ : Registry (Dict → Dict))
        "resnet_18" "simple" ⟨[("n_classes", PyVal.pnat 10)]⟩
      = Except.ok ([⟨0, 64⟩],
          Dict.mk [("n_classes", PyVal.pnat 10), ("fan_in", PyVal.pnat 512)],
          Dict.mk [("n_classes", PyVal.pnat 10), ("fan_in", PyVal.pnat 512)]) ∧
    ((Dict.mk [("n_classes", PyVal.pnat 10)]).set "fan_in" (PyVal.pnat 512)).get? "fan_in"
      = some (PyVal.pnat 512) :=
  c4_prepare_model_fan_in
    (⟨[("resnet_18", fun _ => [⟨0, 64⟩, ⟨1, 512⟩])]⟩ : Registry (Unit → List BLayer))
    (⟨[("simple", fun d => d)]⟩ : Registry (Dict → Dict))
    "resnet_18" "simple" ⟨[("n_classes", PyVal.pnat 10)]⟩
    (fun _ => [⟨0, 64⟩, ⟨1, 512⟩]) ⟨1, 512⟩ (fun d => d) rfl rfl rfl

/-- C10: when cfg params is a list with at least one name matching a
module of the model, `build_optimizer` mutates the callers optimizer_cfg
dictionary in place, binding its params key to the return value of
list.extend - which is Python None - so the callers configuration object
is changed by the call and the bound value is never the collected
parameter list. -/
theorem c10_build_optimizer_mutates_cfg (O : List String) (cfg : OptCfg)
    (model : TorchModel) (names : List String)
    (hn : cfg.params = some names)
    (hm : model.named_modules.any (fun nm => names.contains nm.1) = true)
    (hv : cfg.optimizer_cfg.get? "params" ≠ some PyVal.pynone) :
    (build_optimizer O cfg model).1 = cfg.optimizer_cfg.set "params" PyVal.pynone ∧
    (build_optimizer O cfg model).1.get? "params" = some PyVal.pynone ∧
    (build_optimizer O cfg model).1 ≠ cfg.optimizer_cfg ∧
    ∀ ps : List PyParam, PyVal.pynone ≠ PyVal.plist ps := by
  have hfst : (build_optimizer O cfg model).1
      = cfg.optimizer_cfg.set "params" PyVal.pynone := by
    rw [build_optimizer_fst, hn]
    show (model.named_modules.foldl (optLoopStep names)
        (cfg.optimizer_cfg, ([] : List PyParam))).1 = _
    rw [optLoop_fst, if_pos hm]
  refine ⟨hfst, ?_, ?_, ?_⟩
  · rw [hfst]
    exact Dict.get?_set _ _ _
  · rw [hfst]
    exact Dict.set_ne_of_get?_ne _ _ _ hv
  · exact fun ps hcon => PyVal.noConfusion hcon

theorem c10_witness :
    (build_optimizer ["SGD"]
        ⟨"SGD", some ["cls_head"], ⟨[("lr", PyVal.pobj 0)]⟩⟩
        ⟨[("cls_head", ⟨[⟨2, true⟩]⟩)], [⟨2, true⟩]⟩).1
      = (Dict.mk [("lr", PyVal.pobj 0)]).set "params" PyVal.pynone ∧
    (build_optimizer ["SGD"]
        ⟨"SGD", some ["cls_head"], ⟨[("lr", PyVal.pobj 0)]⟩⟩
        ⟨[("cls_head", ⟨[⟨2, true⟩]⟩)], [⟨2, true⟩]⟩).1.get? "params"
      = some PyVal.pynone ∧
    (build_optimizer ["SGD"]
        ⟨"SGD", some ["cls_head"], ⟨[("lr", PyVal.pobj 0)]⟩⟩
        ⟨[("cls_head", ⟨[⟨2, true⟩]⟩)], [⟨2, true⟩]⟩).1
      ≠ Dict.mk [("lr", PyVal.pobj 0)] ∧
    (∀ ps : List PyParam, PyVal.pynone ≠ PyVal.plist ps) :=
  c10_build_optimizer_mutates_cfg ["SGD"]
    ⟨"SGD", some ["cls_head"], ⟨[("lr", PyVal.pobj 0)]⟩⟩
    ⟨[("cls_head", ⟨[⟨2, true⟩]⟩)], [⟨2, true⟩]⟩
    ["cls_head"] rfl (by decide) (by decide)

/-- C1 is false on the code (code bug): with a name-list config the
optimizer constructor receives params bound to Python None (the return
value of list.extend), not the collected parameter set, although the
matched module has a nonempty parameter list; with params set to None in
the config, the live trainable parameters are collected into a local list
but never written into optimizer_cfg, so a preexisting params entry is
forwarded unchanged. -/
theorem c1_build_optimizer_drops_collected_params :
    build_optimizer ["SGD"]
        ⟨"SGD", some ["cls_head"], ⟨[("lr", PyVal.pobj 0)]⟩⟩
        ⟨[("backbone", ⟨[⟨1, false⟩]⟩), ("cls_head", ⟨[⟨2, true⟩]⟩)],
          [⟨1, false⟩, ⟨2, true⟩]⟩
      = (⟨[("lr", PyVal.pobj 0), ("params", PyVal.pynone)]⟩,
         Except.ok ⟨"SGD", ⟨[("lr", PyVal.pobj 0), ("params", PyVal.pynone)]⟩⟩) ∧
    collectTrainable [⟨1, false⟩, ⟨2, true⟩] = [⟨2, true⟩] ∧
    build_optimizer ["SGD"]
        ⟨"SGD", none, ⟨[("params", PyVal.plist [⟨9, true⟩])]⟩⟩
        ⟨[("backbone", ⟨[⟨1, false⟩]⟩), ("cls_head", ⟨[⟨2, true⟩]⟩)],
          [⟨1, false⟩, ⟨2, true⟩]⟩
      = (⟨[("params", PyVal.plist [⟨9, true⟩])]⟩,
         Except.ok ⟨"SGD", ⟨[("params", PyVal.plist [⟨9, true⟩])]⟩⟩) ∧
    PyVal.plist [⟨9, true⟩] ≠ PyVal.plist [⟨2, true⟩] :=
  ⟨rfl, rfl, rfl, by decide⟩

/-- C2 is false on the code (code bug): the split_info and
garment_annotations injection runs for every dataset entry, not only for
train_dataset - a configuration whose only entry is val_dataset crashes
with a NameError on the unbound splits variable, and in a configuration
listing train_dataset before val_dataset the val_dataset constructor also
receives the injected keys. -/
theorem c2_build_dataset_injects_all_entries :
    build_dataset ["ds"] (PyVal.pobj 7, PyVal.pobj 8)
        [("val_dataset", ⟨"ds", ⟨[]⟩⟩)]
      = Except.error (PyErr.nameError "splits") ∧
    build_dataset ["ds"] (PyVal.pobj 7, PyVal.pobj 8)
        [("train_dataset", ⟨"ds", ⟨[]⟩⟩), ("val_dataset", ⟨"ds", ⟨[]⟩⟩)]
      = Except.ok
          [("train_dataset",
             ⟨"ds", ⟨[("split_info", PyVal.pobj 7),
                      ("garment_annotations", PyVal.pobj 8)]⟩⟩),
           ("val_dataset",
             ⟨"ds", ⟨[("split_info", PyVal.pobj 7),
                      ("garment_annotations", PyVal.pobj 8)]⟩⟩)] :=
  ⟨rfl, rfl⟩

/-- C8 is false on the code (code bug): the call with type Nonexistent,
params None and an empty optimizer_cfg does fail, but with a KeyError on
params raised by the debug-logging line before the registry check, not
with the ValueError that lists the registered optimizer names - for any
key list of the optimizer registry and any model. -/
theorem c8_build_optimizer_keyerror (O : List String) (model : TorchModel) :
    build_optimizer O ⟨"Nonexistent", none, ⟨[]⟩⟩ model
      = (⟨[]⟩, Except.error (PyErr.keyError "params")) :=
  rfl

/-- C9 is false on the code (code bug): freeze_weights does set every
backbone flag to false while leaving head parameters unchanged, and the
collection in the params-None branch does read the live requires_grad
state - before freezing it returns the two trainable backbone parameters,
after freezing it returns the empty list because every flag is false - but
`build_optimizer` then fails with a KeyError at the debug-logging line
instead of yielding an optimizer with zero parameters. -/
theorem c9_freeze_then_build_optimizer :
    (RDFModel.freeze_weights
        ⟨id, fun v => (v, v), [⟨1, true⟩, ⟨2, true⟩], [⟨3, false⟩]⟩).backbone_params
      = [⟨1, false⟩, ⟨2, false⟩] ∧
    (RDFModel.freeze_weights
        ⟨id, fun v => (v, v), [⟨1, true⟩, ⟨2, true⟩], [⟨3, false⟩]⟩).cls_head_params
      = [⟨3, false⟩] ∧
    collectTrainable
        (RDFModel.toTorchModel
          ⟨id, fun v => (v, v), [⟨1, true⟩, ⟨2, true⟩], [⟨3, false⟩]⟩).parameters
      = [⟨1, true⟩, ⟨2, true⟩] ∧
    collectTrainable
        (RDFModel.toTorchModel (RDFModel.freeze_weights
          ⟨id, fun v => (v, v), [⟨1, true⟩, ⟨2, true⟩], [⟨3, false⟩]⟩)).parameters
      = [] ∧
    ((RDFModel.toTorchModel (RDFModel.freeze_weights
          ⟨id, fun v => (v, v), [⟨1, true⟩, ⟨2, true⟩], [⟨3, false⟩]⟩)).parameters.all
        (fun p => !p.requires_grad)) = true ∧
    build_optimizer ["SGD"] ⟨"SGD", none, ⟨[]⟩⟩
        (RDFModel.toTorchModel (RDFModel.freeze_weights
          ⟨id, fun v => (v, v), [⟨1, true⟩, ⟨2, true⟩], [⟨3, false⟩]⟩))
      = (⟨[]⟩, Except.error (PyErr.keyError "params")) :=
  ⟨rfl, rfl, rfl, rfl, rfl, rfl⟩
